import Mathlib

/-!
Shallow embedding of the weather_system ingestion pipeline
(`src/app/models.py`, `src/app/mqtt_client.py`, `src/app/influx_client.py`,
`src/app/main.py`) and proofs about its documented behaviour.

Modelling conventions:
* Python floats are modelled as rationals (`ℚ`); the values the pipeline
  handles are plain decoded numbers and only order comparisons and copies
  are performed on them.
* `datetime` values are modelled as integers (an abstract instant); a
  dynamically-typed value passed as a timestamp is `PyTime` (either a
  datetime or something else, as probed by `isinstance`).
* A parsed JSON object is an association list from string keys to
  `JsonVal`; `JsonVal.num q` is any JSON value that Python's `float()`
  coerces to `q`, `JsonVal.null` is `None`, and `JsonVal.nonNum` is a
  value on which the numeric coercion raises.
* Exceptions are modelled with `Except` and the `PyError` type; every
  constructor of `PyError` other than `jsonDecodeError` corresponds to a
  `KeyError`, `TypeError` or `ValueError` in the source, which is what the
  `except (KeyError, TypeError, ValueError)` clause of `_on_message`
  catches.
* `datetime.now(tz)` is nondeterministic, so decoding functions take the
  current instant `now` as an explicit argument.
-/

namespace WeatherSystem

/-- A JSON value as seen by the decoder, abstracted to what the numeric
coercions distinguish. -/
inductive JsonVal where
  | num (q : ℚ)
  | null
  | nonNum
deriving DecidableEq

/-- A parsed JSON object (`dict`), as an association list. -/
abbrev JsonObj := List (String × JsonVal)

/-- `data.get(key)` / `data[key]` lookup on a parsed JSON object. -/
def dictGet (d : JsonObj) (k : String) : Option JsonVal :=
  d.lookup k

/-- A dynamically-typed value passed as a timestamp: either an actual
`datetime` instant or some other runtime value. -/
inductive PyTime where
  | dt (t : ℤ)
  | notDatetime
deriving DecidableEq

/-- The exceptions the embedded code can raise.  All constructors except
`jsonDecodeError` model a `KeyError`, `TypeError` or `ValueError`;
`runtimeNotConnected` models the `RuntimeError` of the Influx wrapper and
`writeRejected` a store-side write failure. -/
inductive PyError where
  | jsonDecodeError
  | keyError (k : String)
  | coercionError (k : String)
  | timestampTypeError
  | tempOutOfRange (v : ℚ)
  | humidityOutOfRange (v : ℚ)
  | runtimeNotConnected
  | writeRejected
  | otherError
deriving DecidableEq

/-- `app/models.py` `WeatherSample`: one validated sensor reading. -/
structure WeatherSample where
  timestamp : ℤ
  temperature_c : ℚ
  humidity_pct : ℚ
  air_quality_co2_ppm : ℚ
  flammable_gas_ppm : ℚ
  toxic_gas_ppm : ℚ
  uv_index : ℚ
  battery_voltage : ℚ
  gps_latitude : Option ℚ := none
  gps_longitude : Option ℚ := none
  gps_altitude_m : Option ℚ := none
  gps_satellites : Option ℤ := none
  gps_fix_quality : Option ℤ := none
deriving DecidableEq

/-- `WeatherSample.__post_init__`: dataclass construction with validation.
Checks, in source order: the timestamp is a `datetime` (`TypeError`
otherwise), temperature is in `[-50, 100]`, humidity is in `[0, 100]`
(`ValueError` carrying the offending value otherwise). -/
def mkWeatherSample (ts : PyTime) (t h co2 fg tg uv bat : ℚ)
    (lat lon alt : Option ℚ) (sat fixq : Option ℤ) :
    Except PyError WeatherSample :=
  match ts with
  | .notDatetime => .error .timestampTypeError
  | .dt time =>
    if -50 ≤ t ∧ t ≤ 100 then
      if 0 ≤ h ∧ h ≤ 100 then
        .ok ⟨time, t, h, co2, fg, tg, uv, bat, lat, lon, alt, sat, fixq⟩
      else .error (.humidityOutOfRange h)
    else .error (.tempOutOfRange t)

/-- Python `int()` applied to a numeric value: truncation toward zero. -/
def intCoerce (q : ℚ) : ℤ :=
  q.num.tdiv (q.den : ℤ)

/-- `float(data[key])` for a required key: `KeyError` when absent,
`TypeError`/`ValueError` (modelled as `coercionError`) when the value is
`None` or not numerically coercible. -/
def getRequiredFloat (d : JsonObj) (k : String) : Except PyError ℚ :=
  match dictGet d k with
  | none => .error (.keyError k)
  | some (.num q) => .ok q
  | some .null => .error (.coercionError k)
  | some .nonNum => .error (.coercionError k)

/-- `MQTTClient._get_optional_float`: `data.get(key)`, then `float(value)`
unless the value is absent or `None`. -/
def getOptionalFloat (d : JsonObj) (k : String) : Except PyError (Option ℚ) :=
  match dictGet d k with
  | none => .ok none
  | some .null => .ok none
  | some (.num q) => .ok (some q)
  | some .nonNum => .error (.coercionError k)

/-- `MQTTClient._get_optional_int`: `data.get(key)`, then `int(value)`
unless the value is absent or `None`. -/
def getOptionalInt (d : JsonObj) (k : String) : Except PyError (Option ℤ) :=
  match dictGet d k with
  | none => .ok none
  | some .null => .ok none
  | some (.num q) => .ok (some (intCoerce q))
  | some .nonNum => .error (.coercionError k)

/-- `MQTTClient._json_to_weather_sample`: extract the seven required
fields and five optional GPS fields in source order, stamp with the
server-side current instant, and construct the validated sample.  (The
timezone fallback only affects how `now` is displayed, not the instant,
so it does not appear in the model.) -/
def jsonToWeatherSample (now : ℤ) (d : JsonObj) : Except PyError WeatherSample := do
  let t ← getRequiredFloat d "temperature"
  let h ← getRequiredFloat d "humidity"
  let co2 ← getRequiredFloat d "co2"
  let fg ← getRequiredFloat d "flammable_gas"
  let tg ← getRequiredFloat d "toxic_gas"
  let uv ← getRequiredFloat d "uv_index"
  let bat ← getRequiredFloat d "battery"
  let lat ← getOptionalFloat d "latitude"
  let lon ← getOptionalFloat d "longitude"
  let alt ← getOptionalFloat d "altitude"
  let sat ← getOptionalInt d "satellites"
  let fixq ← getOptionalInt d "fix_quality"
  mkWeatherSample (.dt now) t h co2 fg tg uv bat lat lon alt sat fixq

/-! ## Influx client (`src/app/influx_client.py`) -/

/-- A field value written to the store: numeric sensor readings are
floats, the GPS satellite count and fix quality are integers. -/
inductive FieldVal where
  | fnum (q : ℚ)
  | fint (n : ℤ)
deriving DecidableEq

/-- An InfluxDB `Point` under construction: a measurement name, an event
time, ordered field columns, and ordered tag columns. -/
structure Point where
  measurement : String
  time : ℤ
  fields : List (String × FieldVal)
  tags : List (String × String)
deriving DecidableEq

/-- `InfluxClient._sample_to_point`: one point per sample; the event time
is the sample's timestamp; the seven required readings become fields in
source order; each GPS field is appended only when present; no tags are
set. -/
def sampleToPoint (measurement : String) (s : WeatherSample) : Point :=
  let fields := [
    ("temperature_c", FieldVal.fnum s.temperature_c),
    ("humidity_pct", FieldVal.fnum s.humidity_pct),
    ("air_quality_co2_ppm", FieldVal.fnum s.air_quality_co2_ppm),
    ("flammable_gas_ppm", FieldVal.fnum s.flammable_gas_ppm),
    ("toxic_gas_ppm", FieldVal.fnum s.toxic_gas_ppm),
    ("uv_index", FieldVal.fnum s.uv_index),
    ("battery_voltage", FieldVal.fnum s.battery_voltage)]
  let fields := match s.gps_latitude with
    | some v => fields ++ [("gps_latitude", FieldVal.fnum v)]
    | none => fields
  let fields := match s.gps_longitude with
    | some v => fields ++ [("gps_longitude", FieldVal.fnum v)]
    | none => fields
  let fields := match s.gps_altitude_m with
    | some v => fields ++ [("gps_altitude_m", FieldVal.fnum v)]
    | none => fields
  let fields := match s.gps_satellites with
    | some v => fields ++ [("gps_satellites", FieldVal.fint v)]
    | none => fields
  let fields := match s.gps_fix_quality with
    | some v => fields ++ [("gps_fix_quality", FieldVal.fint v)]
    | none => fields
  ⟨measurement, s.timestamp, fields, []⟩

/-- One result row of a query: column name to scalar value. -/
abbrev Row := List (String × ℚ)

/-- The underlying `InfluxDBClient3` handle once `connect()` has
succeeded: the points durably written so far, whether the store rejects
writes, the store's response to a query string, and whether the handle
has been closed. -/
structure StoreClient where
  stored : List Point
  rejectWrite : Bool
  runQuery : String → List Row
  closedFlag : Bool

/-- `InfluxClient`: `_client` is `None` until `connect()` succeeds. -/
structure InfluxState where
  measurement : String
  client : Option StoreClient

/-- Number of points the store holds. -/
def storeCount (ic : InfluxState) : ℕ :=
  match ic.client with
  | none => 0
  | some c => c.stored.length

/-- `InfluxClient.write_sample`: `RuntimeError` when not connected,
otherwise convert to a point and submit; a rejected write propagates. -/
def writeSample (ic : InfluxState) (s : WeatherSample) :
    Except PyError InfluxState :=
  match ic.client with
  | none => .error .runtimeNotConnected
  | some c =>
    let p := sampleToPoint ic.measurement s
    if c.rejectWrite then .error .writeRejected
    else .ok { ic with client := some { c with stored := c.stored ++ [p] } }

/-- `InfluxClient.write_samples_batch`: `RuntimeError` when not
connected; an empty list is logged and returns before any write;
otherwise all points are converted and submitted together. -/
def writeSamplesBatch (ic : InfluxState) (samples : List WeatherSample) :
    Except PyError InfluxState :=
  match ic.client with
  | none => .error .runtimeNotConnected
  | some c =>
    if samples.isEmpty then .ok ic
    else
      let points := samples.map (sampleToPoint ic.measurement)
      if c.rejectWrite then .error .writeRejected
      else .ok { ic with client := some { c with stored := c.stored ++ points } }

/-- The SQL text `query_recent_samples` sends. -/
def recentQuerySql (measurement : String) (limit : ℕ) : String :=
  "SELECT * FROM \"" ++ measurement ++ "\" ORDER BY time DESC LIMIT " ++ toString limit

/-- The SQL text `query_time_range` sends. -/
def rangeQuerySql (measurement : String) (startT endT : ℤ) : String :=
  "SELECT * FROM \"" ++ measurement ++ "\" WHERE time BETWEEN " ++
    toString startT ++ " AND " ++ toString endT ++ " ORDER BY time ASC"

/-- The SQL text `query_count` sends. -/
def countQuerySql (measurement : String) : String :=
  "SELECT COUNT(*) as count FROM \"" ++ measurement ++ "\""

/-- `InfluxClient.query_recent_samples`: `RuntimeError` when not
connected, otherwise run the recent-N query. -/
def queryRecentSamples (ic : InfluxState) (limit : ℕ) :
    Except PyError (List Row) :=
  match ic.client with
  | none => .error .runtimeNotConnected
  | some c => .ok (c.runQuery (recentQuerySql ic.measurement limit))

/-- `InfluxClient.query_time_range`: `RuntimeError` when not connected;
a missing end bound defaults to the current instant `now`. -/
def queryTimeRange (ic : InfluxState) (startT : ℤ) (endT : Option ℤ)
    (now : ℤ) : Except PyError (List Row) :=
  match ic.client with
  | none => .error .runtimeNotConnected
  | some c =>
    let e := endT.getD now
    .ok (c.runQuery (rangeQuerySql ic.measurement startT e))

/-- `InfluxClient.query_latest_sample`: delegates to
`query_recent_samples` with limit 1 and takes the first row if any. -/
def queryLatestSample (ic : InfluxState) : Except PyError (Option Row) :=
  (queryRecentSamples ic 1).map fun rows => rows.head?

/-- `InfluxClient.query_count`: `RuntimeError` when not connected;
otherwise read `count` out of the first result row, defaulting to 0. -/
def queryCount (ic : InfluxState) : Except PyError ℤ :=
  match ic.client with
  | none => .error .runtimeNotConnected
  | some c =>
    let data := c.runQuery (countQuerySql ic.measurement)
    match data with
    | [] => .ok 0
    | row :: _ => .ok (intCoerce ((row.lookup "count").getD 0))

/-- `InfluxClient.close`: close the underlying handle when present
(`_client` itself is kept); `closeRaises` models the underlying
`close()` call raising, in which case the handle state is unchanged and
the exception propagates to the caller of `close`. -/
def influxClose (ic : InfluxState) (closeRaises : Bool) :
    Except PyError InfluxState :=
  match ic.client with
  | none => .ok ic
  | some c =>
    if closeRaises then .error .otherError
    else .ok { ic with client := some { c with closedFlag := true } }

/-! ## MQTT message handling (`src/app/mqtt_client.py`) -/

/-- A raw MQTT payload, abstracted to what `_parse_json` distinguishes:
bytes that decode and parse to a JSON object, bytes that are UTF-8 but
not valid JSON, and bytes that are not UTF-8. -/
inductive RawPayload where
  | valid (d : JsonObj)
  | invalidJson
  | invalidUtf8
deriving DecidableEq

/-- `MQTTClient._parse_json`: `payload.decode` then `json.loads`.  A
`UnicodeDecodeError` is a `ValueError`, modelled as a coercion error. -/
def parseJsonRaw : RawPayload → Except PyError JsonObj
  | .valid d => .ok d
  | .invalidJson => .error .jsonDecodeError
  | .invalidUtf8 => .error (.coercionError "utf-8")

/-- Which `except` clause of `_on_message` an exception matches. -/
inductive ExcClass where
  | jsonDecode
  | keyTypeValue
  | otherExc
deriving DecidableEq

/-- Exception classification for the `except` clauses of `_on_message`:
`json.JSONDecodeError` first, then `(KeyError, TypeError, ValueError)`,
then the bare `Exception` catch-all. -/
def classifyError : PyError → ExcClass
  | .jsonDecodeError => .jsonDecode
  | .keyError _ => .keyTypeValue
  | .coercionError _ => .keyTypeValue
  | .timestampTypeError => .keyTypeValue
  | .tempOutOfRange _ => .keyTypeValue
  | .humidityOutOfRange _ => .keyTypeValue
  | .runtimeNotConnected => .otherExc
  | .writeRejected => .otherExc
  | .otherError => .otherExc

/-- Parse then decode: the body of `_on_message` up to the callback. -/
def decodeMsg (now : ℤ) (msg : RawPayload) : Except PyError WeatherSample := do
  let d ← parseJsonRaw msg
  jsonToWeatherSample now d

/-- What `_on_message` logged for a message. -/
inductive MsgLog where
  | success
  | invalidJsonLogged
  | parseFailureLogged
  | unexpectedLogged
deriving DecidableEq

/-- The observable outcome of one `_on_message` invocation: the samples
passed to the registered callback, what was logged, and the exception
propagated to the paho delivery context, if any. -/
structure OnMsgResult where
  calls : List WeatherSample
  log : MsgLog
  propagated : Option PyError
deriving DecidableEq

/-- The `try` block of `_on_message`: parse, decode, invoke the
registered callback (which may itself raise, modelled by `handler`
returning `some e`).  Returns the callback invocations made and the
in-flight exception, if any. -/
def onMessageTry (now : ℤ) (handler : WeatherSample → Option PyError)
    (msg : RawPayload) : List WeatherSample × Option PyError :=
  match decodeMsg now msg with
  | .error e => ([], some e)
  | .ok s =>
    match handler s with
    | some e => ([s], some e)
    | none => ([s], none)

/-- `MQTTClient._on_message`: the `try` block followed by the three
`except` clauses, which together catch every exception, log it, and
discard the message. -/
def onMessage (now : ℤ) (handler : WeatherSample → Option PyError)
    (msg : RawPayload) : OnMsgResult :=
  let (calls, exc) := onMessageTry now handler msg
  match exc with
  | none => ⟨calls, .success, none⟩
  | some e =>
    match classifyError e with
    | .jsonDecode => ⟨calls, .invalidJsonLogged, none⟩
    | .keyTypeValue => ⟨calls, .parseFailureLogged, none⟩
    | .otherExc => ⟨calls, .unexpectedLogged, none⟩

/-! ## Ingestion coordinator (`src/app/main.py`) -/

/-- The MQTT client's connection state, as mutated by `stop()`. -/
structure MqttState where
  is_connected : Bool
  loopRunning : Bool
deriving DecidableEq

/-- `MQTTClient.stop`: `loop_stop()`, then `disconnect()` (which may
raise, after the loop is already stopped), then clear the connected
flag. -/
def mqttStop (m : MqttState) (stopRaises : Bool) : MqttState × Option PyError :=
  let m := { m with loopRunning := false }
  if stopRaises then (m, some .otherError)
  else ({ m with is_connected := false }, none)

/-- `WeatherStationApp` state: statistics counters, the two clients
(absent until `setup()`), and the shutdown flag. -/
structure AppState where
  samples_received : ℕ
  samples_written : ℕ
  samples_failed : ℕ
  influx_client : Option InfluxState
  mqtt_client : Option MqttState
  shutdown_requested : Bool

/-- Log events emitted by the coordinator. -/
inductive AppEvent where
  | sampleSummary
  | statsReport
  | writeFailureLogged
  | noClientLogged
  | mqttStopped
  | mqttStopErrorLogged
  | influxClosed
  | influxCloseErrorLogged
deriving DecidableEq

/-- Points currently stored through the coordinator's Influx client. -/
def appStoredCount (app : AppState) : ℕ :=
  match app.influx_client with
  | none => 0
  | some ic => storeCount ic

/-- `WeatherStationApp._on_sample_received`: increment the received
count; if the Influx client is absent, count a failure; otherwise write
the sample — on success increment the written count, log a summary, and
every tenth received message show statistics; on a write error increment
the failed count. -/
def onSampleReceived (app : AppState) (s : WeatherSample) :
    AppState × List AppEvent :=
  let app1 := { app with samples_received := app.samples_received + 1 }
  match app1.influx_client with
  | none =>
    ({ app1 with samples_failed := app1.samples_failed + 1 }, [.noClientLogged])
  | some ic =>
    match writeSample ic s with
    | .ok ic2 =>
      let app2 := { app1 with
        influx_client := some ic2
        samples_written := app1.samples_written + 1 }
      if app2.samples_received % 10 = 0 then
        (app2, [.sampleSummary, .statsReport])
      else (app2, [.sampleSummary])
    | .error _ =>
      ({ app1 with samples_failed := app1.samples_failed + 1 },
       [.writeFailureLogged])

/-- What the MQTT layer logged for one full pipeline step. -/
inductive PipeLog where
  | jsonErrorLogged
  | validationFailureLogged
  | unexpectedErrorLogged
  | delivered
deriving DecidableEq

/-- One end-to-end message: `_on_message` with the coordinator's
`_on_sample_received` as the registered callback (which never raises:
its write path is wrapped in `try`/`except`). -/
def pipelineStep (app : AppState) (now : ℤ) (msg : RawPayload) :
    AppState × PipeLog × List AppEvent :=
  match decodeMsg now msg with
  | .error e =>
    match classifyError e with
    | .jsonDecode => (app, .jsonErrorLogged, [])
    | .keyTypeValue => (app, .validationFailureLogged, [])
    | .otherExc => (app, .unexpectedErrorLogged, [])
  | .ok s =>
    let (app2, evs) := onSampleReceived app s
    (app2, .delivered, evs)

/-- Environment for `shutdown()`: whether stopping the MQTT client and
closing the Influx client raise. -/
structure ShutdownEnv where
  stopRaises : Bool
  closeRaises : Bool
deriving DecidableEq

/-- The observable result of `shutdown()`. -/
structure ShutdownResult where
  state : AppState
  events : List AppEvent
  propagated : Option PyError

/-- `WeatherStationApp.shutdown`: set the shutdown flag, show final
statistics, stop the MQTT client (errors caught and logged), then close
the Influx client (errors caught and logged).  Both `except` clauses are
catch-alls, so nothing propagates. -/
def shutdown (env : ShutdownEnv) (app : AppState) : ShutdownResult :=
  let app := { app with shutdown_requested := true }
  let evs := [AppEvent.statsReport]
  let (app, evs) :=
    match app.mqtt_client with
    | none => (app, evs)
    | some m =>
      match mqttStop m env.stopRaises with
      | (m2, none) =>
        ({ app with mqtt_client := some m2 }, evs ++ [AppEvent.mqttStopped])
      | (m2, some _) =>
        ({ app with mqtt_client := some m2 }, evs ++ [AppEvent.mqttStopErrorLogged])
  match app.influx_client with
  | none => ⟨app, evs, none⟩
  | some ic =>
    match influxClose ic env.closeRaises with
    | .ok ic2 =>
      ⟨{ app with influx_client := some ic2 }, evs ++ [AppEvent.influxClosed], none⟩
    | .error _ =>
      ⟨app, evs ++ [AppEvent.influxCloseErrorLogged], none⟩

/-- A key is present with a non-null value in the payload. -/
def keyPresentNonNull (d : JsonObj) (k : String) : Prop :=
  ∃ v, dictGet d k = some v ∧ v ≠ JsonVal.null

/-- A key, when present, holds a numerically coercible value or null. -/
def keyCoercibleIfPresent (d : JsonObj) (k : String) : Prop :=
  ∀ v, dictGet d k = some v → v ≠ JsonVal.nonNum

/-! ## Concrete fixtures used by witnesses and counterexamples -/

/-- A store client in its freshly connected state. -/
def freshClient : StoreClient :=
  ⟨[], false, fun _ => [], false⟩

/-- An Influx wrapper whose `connect()` has succeeded. -/
def connectedInflux : InfluxState :=
  ⟨"weather_data", some freshClient⟩

/-- An Influx wrapper before `connect()`. -/
def disconnectedInflux : InfluxState :=
  ⟨"weather_data", none⟩

/-- A store client that rejects every write. -/
def rejectingClient : StoreClient :=
  ⟨[], true, fun _ => [], false⟩

/-- An Influx wrapper whose underlying store rejects writes. -/
def rejectingInflux : InfluxState :=
  ⟨"weather_data", some rejectingClient⟩

/-- The spec's §8 concrete valid payload, with integral readings. -/
def samplePayload : JsonObj :=
  [("temperature", JsonVal.num 25), ("humidity", JsonVal.num 60),
   ("co2", JsonVal.num 500), ("flammable_gas", JsonVal.num 100),
   ("toxic_gas", JsonVal.num 80), ("uv_index", JsonVal.num 6),
   ("battery", JsonVal.num 4), ("latitude", JsonVal.num (-19)),
   ("longitude", JsonVal.num (-43)), ("altitude", JsonVal.num 750),
   ("satellites", JsonVal.num 10), ("fix_quality", JsonVal.num 1)]

/-- The spec's §8 out-of-range payload: temperature 200, all other
required fields valid, no GPS keys. -/
def badTempPayload : JsonObj :=
  [("temperature", JsonVal.num 200), ("humidity", JsonVal.num 50),
   ("co2", JsonVal.num 500), ("flammable_gas", JsonVal.num 100),
   ("toxic_gas", JsonVal.num 80), ("uv_index", JsonVal.num 6),
   ("battery", JsonVal.num 4)]

/-- A concrete valid sample. -/
def sample0 : WeatherSample :=
  ⟨0, 25, 60, 500, 100, 80, 6, 4, none, none, none, none, none⟩

/-- The coordinator right after `setup()`. -/
def appFresh : AppState :=
  ⟨0, 0, 0, some connectedInflux, none, false⟩

/-- A coordinator that has received 9 messages, all written, whose store
now rejects writes. -/
def appNine : AppState :=
  ⟨9, 9, 0, some rejectingInflux, none, false⟩

/-! ## Theorems -/

/-- **C8**: Constructing a Record from field values either succeeds and
returns an instance, or fails with a validation error naming the
offending field/value; it fails exactly when the timestamp is not a
valid point in time, or temperature is outside [-50, 100], or humidity
is outside [0, 100], and on failure no Record exists (construction
returns an error, never an instance). -/
theorem record_construction_validates (ts : PyTime) (t h co2 fg tg uv bat : ℚ)
    (lat lon alt : Option ℚ) (sat fixq : Option ℤ) :
    ((∃ s, mkWeatherSample ts t h co2 fg tg uv bat lat lon alt sat fixq = .ok s) ↔
      ((∃ time, ts = PyTime.dt time) ∧ (-50 ≤ t ∧ t ≤ 100) ∧ (0 ≤ h ∧ h ≤ 100))) ∧
    (∀ e, mkWeatherSample ts t h co2 fg tg uv bat lat lon alt sat fixq = .error e →
      e = PyError.timestampTypeError ∨ e = PyError.tempOutOfRange t ∨
        e = PyError.humidityOutOfRange h) ∧
    (∀ s, mkWeatherSample ts t h co2 fg tg uv bat lat lon alt sat fixq = .ok s →
      s.temperature_c = t ∧ s.humidity_pct = h ∧ s.air_quality_co2_ppm = co2 ∧
      s.flammable_gas_ppm = fg ∧ s.toxic_gas_ppm = tg ∧ s.uv_index = uv ∧
      s.battery_voltage = bat ∧ s.gps_latitude = lat ∧ s.gps_longitude = lon ∧
      s.gps_altitude_m = alt ∧ s.gps_satellites = sat ∧ s.gps_fix_quality = fixq) := by
  unfold mkWeatherSample
  cases ts with
  | notDatetime => simp
  | dt time =>
    by_cases h1 : (-50 ≤ t ∧ t ≤ 100) <;> by_cases h2 : (0 ≤ h ∧ h ≤ 100) <;>
      simp [h1, h2]

/-- Witness for C8 at the spec's concrete reading. -/
theorem record_construction_validates_witness :
    ∃ s, mkWeatherSample (PyTime.dt 0) 25 60 500 100 80 6 4
      none none none none none = .ok s :=
  (record_construction_validates (PyTime.dt 0) 25 60 500 100 80 6 4
    none none none none none).1.mpr
    ⟨⟨0, rfl⟩, ⟨by norm_num, by norm_num⟩, ⟨by norm_num, by norm_num⟩⟩

/-- The required value columns of a store point, per the spec's §6
wording: `temperature_c, humidity_pct, air_quality_co2_ppm,
flammable_gas_ppm, toxic_gas_ppm, uv_index, battery_voltage`. -/
def specRequiredColumns (s : WeatherSample) : List (String × FieldVal) :=
  [("temperature_c", FieldVal.fnum s.temperature_c),
   ("humidity_pct", FieldVal.fnum s.humidity_pct),
   ("air_quality_co2_ppm", FieldVal.fnum s.air_quality_co2_ppm),
   ("flammable_gas_ppm", FieldVal.fnum s.flammable_gas_ppm),
   ("toxic_gas_ppm", FieldVal.fnum s.toxic_gas_ppm),
   ("uv_index", FieldVal.fnum s.uv_index),
   ("battery_voltage", FieldVal.fnum s.battery_voltage)]

/-- A numeric column present exactly when the optional value is. -/
def optNumColumn (name : String) (v : Option ℚ) : List (String × FieldVal) :=
  match v with
  | some q => [(name, FieldVal.fnum q)]
  | none => []

/-- An integer column present exactly when the optional value is. -/
def optIntColumn (name : String) (v : Option ℤ) : List (String × FieldVal) :=
  match v with
  | some n => [(name, FieldVal.fint n)]
  | none => []

/-- The GPS value columns of a store point, per the spec's §6 wording:
each of `gps_latitude, gps_longitude, gps_altitude_m, gps_satellites,
gps_fix_quality` exactly when the corresponding field is present. -/
def specGpsColumns (s : WeatherSample) : List (String × FieldVal) :=
  optNumColumn "gps_latitude" s.gps_latitude ++
  optNumColumn "gps_longitude" s.gps_longitude ++
  optNumColumn "gps_altitude_m" s.gps_altitude_m ++
  optIntColumn "gps_satellites" s.gps_satellites ++
  optIntColumn "gps_fix_quality" s.gps_fix_quality

/-- **C9**: For every Record, the conversion to a store point yields
exactly one point whose event time is the Record's ingestion timestamp,
whose value columns are the seven required readings plus each GPS column
exactly when the corresponding optional field is present, and which has
no index/tag columns. -/
theorem sample_to_point_columns (m : String) (s : WeatherSample) :
    (sampleToPoint m s).time = s.timestamp ∧
    (sampleToPoint m s).tags = [] ∧
    (sampleToPoint m s).measurement = m ∧
    (sampleToPoint m s).fields = specRequiredColumns s ++ specGpsColumns s := by
  obtain ⟨ts, t, h, c, f, g, u, b, lat, lon, alt, sat, fq⟩ := s
  cases lat <;> cases lon <;> cases alt <;> cases sat <;> cases fq <;>
    simp [sampleToPoint, specRequiredColumns, specGpsColumns,
      optNumColumn, optIntColumn]

/-- **C5**: On a connected gateway, calling `write_samples_batch` with
an empty list of records is a no-op: it returns without error and with
the state (hence the store count) unchanged, writing no point. -/
theorem write_batch_empty_noop (ic : InfluxState) (c : StoreClient)
    (hc : ic.client = some c) :
    writeSamplesBatch ic [] = .ok ic := by
  simp [writeSamplesBatch, hc]

/-- Witness for C5 on a freshly connected gateway. -/
theorem write_batch_empty_noop_witness :
    writeSamplesBatch connectedInflux [] = .ok connectedInflux :=
  write_batch_empty_noop connectedInflux freshClient rfl

/-- **C7**: Every query operation of the gateway — `query_recent_samples`,
`query_time_range`, `query_latest_sample`, `query_count` — when called
before `connect()` has succeeded (no underlying client), fails with
`RuntimeError`; no query string ever reaches a store client, since none
exists. -/
theorem queries_require_connection (ic : InfluxState) (hc : ic.client = none)
    (limit : ℕ) (startT : ℤ) (endT : Option ℤ) (now : ℤ) :
    queryRecentSamples ic limit = .error .runtimeNotConnected ∧
    queryTimeRange ic startT endT now = .error .runtimeNotConnected ∧
    queryLatestSample ic = .error .runtimeNotConnected ∧
    queryCount ic = .error .runtimeNotConnected := by
  simp [queryRecentSamples, queryTimeRange, queryLatestSample, queryCount,
    hc, Except.map]

/-- Reduction of the `Except` monad bind on a success value. -/
theorem except_bind_ok {e : Type} {a b : Type} (x : a) (f : a -> Except e b) :
    (Except.ok x : Except e a) >>= f = f x := rfl

/-- A key bound to a numeric value is coercible when present. -/
theorem keyCoercible_of_num (d : JsonObj) (k : String) (q : ℚ)
    (h : dictGet d k = some (JsonVal.num q)) : keyCoercibleIfPresent d k := by
  intro v hv heq
  subst heq
  rw [h] at hv
  simp at hv

/-- An absent key is vacuously coercible. -/
theorem keyCoercible_of_absent (d : JsonObj) (k : String)
    (h : dictGet d k = none) : keyCoercibleIfPresent d k := by
  intro v hv heq
  rw [h] at hv
  simp at hv

/-- A present, numerically coercible required key extracts cleanly. -/
theorem getRequiredFloat_ok (d : JsonObj) (k : String) (q : ℚ)
    (h : dictGet d k = some (JsonVal.num q)) :
    getRequiredFloat d k = .ok q := by
  simp [getRequiredFloat, h]

/-- Behaviour of `_get_optional_float` when the key, if present, is
coercible: extraction succeeds, the result is present iff the key is
present and non-null, and a numeric value is passed through. -/
theorem getOptionalFloat_spec (d : JsonObj) (k : String)
    (hk : keyCoercibleIfPresent d k) :
    ∃ o, getOptionalFloat d k = .ok o ∧
      (o.isSome ↔ keyPresentNonNull d k) ∧
      ∀ q, dictGet d k = some (JsonVal.num q) → o = some q := by
  unfold getOptionalFloat
  cases hv : dictGet d k with
  | none => exact ⟨none, rfl, by simp [keyPresentNonNull, hv], by simp [hv]⟩
  | some v =>
    cases v with
    | num q =>
      refine ⟨some q, rfl, ?_, ?_⟩
      · simp only [Option.isSome_some, true_iff]
        exact ⟨JsonVal.num q, hv, by simp⟩
      · intro q' hq'
        simp_all
    | null =>
      refine ⟨none, rfl, ?_, ?_⟩
      · simp [keyPresentNonNull, hv]
      · intro q' hq'
        simp_all
    | nonNum => exact absurd rfl (hk JsonVal.nonNum hv)

/-- Behaviour of `_get_optional_int` when the key, if present, is
coercible: extraction succeeds, the result is present iff the key is
present and non-null, and a numeric value is truncated to an integer. -/
theorem getOptionalInt_spec (d : JsonObj) (k : String)
    (hk : keyCoercibleIfPresent d k) :
    ∃ o, getOptionalInt d k = .ok o ∧
      (o.isSome ↔ keyPresentNonNull d k) ∧
      ∀ q, dictGet d k = some (JsonVal.num q) → o = some (intCoerce q) := by
  unfold getOptionalInt
  cases hv : dictGet d k with
  | none => exact ⟨none, rfl, by simp [keyPresentNonNull, hv], by simp [hv]⟩
  | some v =>
    cases v with
    | num q =>
      refine ⟨some (intCoerce q), rfl, ?_, ?_⟩
      · simp only [Option.isSome_some, true_iff]
        exact ⟨JsonVal.num q, hv, by simp⟩
      · intro q' hq'
        simp_all
    | null =>
      refine ⟨none, rfl, ?_, ?_⟩
      · simp [keyPresentNonNull, hv]
      · intro q' hq'
        simp_all
    | nonNum => exact absurd rfl (hk JsonVal.nonNum hv)

/-- **C1**: For every payload containing the seven required keys with
numerically coercible values, temperature in [-50,100] and humidity in
[0,100], and whose optional GPS keys (when present) are coercible or
null, decoding succeeds and produces a Record whose required fields
equal the coerced payload values, whose timestamp is the ingestion
instant, and whose optional GPS fields are present iff the corresponding
payload key is present and non-null (carrying the coerced value). -/
theorem decode_valid_payload (now : ℤ) (d : JsonObj)
    (t h co2 fg tg uv bat : ℚ)
    (ht1 : dictGet d "temperature" = some (JsonVal.num t))
    (hh1 : dictGet d "humidity" = some (JsonVal.num h))
    (hc1 : dictGet d "co2" = some (JsonVal.num co2))
    (hf1 : dictGet d "flammable_gas" = some (JsonVal.num fg))
    (hx1 : dictGet d "toxic_gas" = some (JsonVal.num tg))
    (hu1 : dictGet d "uv_index" = some (JsonVal.num uv))
    (hb1 : dictGet d "battery" = some (JsonVal.num bat))
    (htr : -50 ≤ t ∧ t ≤ 100) (hhr : 0 ≤ h ∧ h ≤ 100)
    (hlat : keyCoercibleIfPresent d "latitude")
    (hlon : keyCoercibleIfPresent d "longitude")
    (halt : keyCoercibleIfPresent d "altitude")
    (hsat : keyCoercibleIfPresent d "satellites")
    (hfq : keyCoercibleIfPresent d "fix_quality") :
    ∃ s, jsonToWeatherSample now d = .ok s ∧
      s.timestamp = now ∧ s.temperature_c = t ∧ s.humidity_pct = h ∧
      s.air_quality_co2_ppm = co2 ∧ s.flammable_gas_ppm = fg ∧
      s.toxic_gas_ppm = tg ∧ s.uv_index = uv ∧ s.battery_voltage = bat ∧
      (s.gps_latitude.isSome ↔ keyPresentNonNull d "latitude") ∧
      (s.gps_longitude.isSome ↔ keyPresentNonNull d "longitude") ∧
      (s.gps_altitude_m.isSome ↔ keyPresentNonNull d "altitude") ∧
      (s.gps_satellites.isSome ↔ keyPresentNonNull d "satellites") ∧
      (s.gps_fix_quality.isSome ↔ keyPresentNonNull d "fix_quality") ∧
      (∀ q, dictGet d "latitude" = some (JsonVal.num q) →
        s.gps_latitude = some q) ∧
      (∀ q, dictGet d "longitude" = some (JsonVal.num q) →
        s.gps_longitude = some q) ∧
      (∀ q, dictGet d "altitude" = some (JsonVal.num q) →
        s.gps_altitude_m = some q) ∧
      (∀ q, dictGet d "satellites" = some (JsonVal.num q) →
        s.gps_satellites = some (intCoerce q)) ∧
      (∀ q, dictGet d "fix_quality" = some (JsonVal.num q) →
        s.gps_fix_quality = some (intCoerce q)) := by
  obtain ⟨htl, hth⟩ := htr
  obtain ⟨hhl, hhh⟩ := hhr
  obtain ⟨olat, hlat1, hlat2, hlat3⟩ := getOptionalFloat_spec d "latitude" hlat
  obtain ⟨olon, hlon1, hlon2, hlon3⟩ := getOptionalFloat_spec d "longitude" hlon
  obtain ⟨oalt, halt1, halt2, halt3⟩ := getOptionalFloat_spec d "altitude" halt
  obtain ⟨osat, hsat1, hsat2, hsat3⟩ := getOptionalInt_spec d "satellites" hsat
  obtain ⟨ofq, hfq1, hfq2, hfq3⟩ := getOptionalInt_spec d "fix_quality" hfq
  refine ⟨⟨now, t, h, co2, fg, tg, uv, bat, olat, olon, oalt, osat, ofq⟩, ?_,
    rfl, rfl, rfl, rfl, rfl, rfl, rfl, rfl,
    hlat2, hlon2, halt2, hsat2, hfq2, hlat3, hlon3, halt3, hsat3, hfq3⟩
  simp [jsonToWeatherSample, except_bind_ok,
    getRequiredFloat_ok d "temperature" t ht1,
    getRequiredFloat_ok d "humidity" h hh1,
    getRequiredFloat_ok d "co2" co2 hc1,
    getRequiredFloat_ok d "flammable_gas" fg hf1,
    getRequiredFloat_ok d "toxic_gas" tg hx1,
    getRequiredFloat_ok d "uv_index" uv hu1,
    getRequiredFloat_ok d "battery" bat hb1,
    hlat1, hlon1, halt1, hsat1, hfq1,
    mkWeatherSample, htl, hth, hhl, hhh]

/-- Witness for C1 at the spec's §8 concrete payload. -/
theorem decode_valid_payload_witness :
    ∃ s, jsonToWeatherSample 0 samplePayload = .ok s ∧
      s.timestamp = 0 ∧ s.temperature_c = 25 ∧ s.humidity_pct = 60 ∧
      s.air_quality_co2_ppm = 500 ∧ s.flammable_gas_ppm = 100 ∧
      s.toxic_gas_ppm = 80 ∧ s.uv_index = 6 ∧ s.battery_voltage = 4 ∧
      (s.gps_latitude.isSome ↔ keyPresentNonNull samplePayload "latitude") ∧
      (s.gps_longitude.isSome ↔ keyPresentNonNull samplePayload "longitude") ∧
      (s.gps_altitude_m.isSome ↔ keyPresentNonNull samplePayload "altitude") ∧
      (s.gps_satellites.isSome ↔ keyPresentNonNull samplePayload "satellites") ∧
      (s.gps_fix_quality.isSome ↔ keyPresentNonNull samplePayload "fix_quality") ∧
      (∀ q, dictGet samplePayload "latitude" = some (JsonVal.num q) →
        s.gps_latitude = some q) ∧
      (∀ q, dictGet samplePayload "longitude" = some (JsonVal.num q) →
        s.gps_longitude = some q) ∧
      (∀ q, dictGet samplePayload "altitude" = some (JsonVal.num q) →
        s.gps_altitude_m = some q) ∧
      (∀ q, dictGet samplePayload "satellites" = some (JsonVal.num q) →
        s.gps_satellites = some (intCoerce q)) ∧
      (∀ q, dictGet samplePayload "fix_quality" = some (JsonVal.num q) →
        s.gps_fix_quality = some (intCoerce q)) :=
  decode_valid_payload 0 samplePayload 25 60 500 100 80 6 4
    (by decide) (by decide) (by decide) (by decide) (by decide) (by decide)
    (by decide)
    ⟨by norm_num, by norm_num⟩ ⟨by norm_num, by norm_num⟩
    (keyCoercible_of_num samplePayload "latitude" (-19) (by decide))
    (keyCoercible_of_num samplePayload "longitude" (-43) (by decide))
    (keyCoercible_of_num samplePayload "altitude" 750 (by decide))
    (keyCoercible_of_num samplePayload "satellites" 10 (by decide))
    (keyCoercible_of_num samplePayload "fix_quality" 1 (by decide))

/-- Witness for C7 on a not-yet-connected gateway. -/
theorem queries_require_connection_witness :
    queryRecentSamples disconnectedInflux 100 = .error .runtimeNotConnected ∧
    queryTimeRange disconnectedInflux 0 none 5 = .error .runtimeNotConnected ∧
    queryLatestSample disconnectedInflux = .error .runtimeNotConnected ∧
    queryCount disconnectedInflux = .error .runtimeNotConnected :=
  queries_require_connection disconnectedInflux rfl 100 0 none 5

/-- **C4**: For every inbound message, `_on_message` never propagates an
exception to the delivery context; on a successful decode the registered
handler is invoked exactly once with the decoded Record (even if the
handler itself then raises, which is caught); on any decode, validation
or unexpected failure the handler is not invoked, nothing propagates,
and the failure is logged (the message is discarded). -/
theorem on_message_never_propagates (now : ℤ)
    (handler : WeatherSample → Option PyError) (msg : RawPayload) :
    (onMessage now handler msg).propagated = none ∧
    (∀ s, decodeMsg now msg = .ok s → (onMessage now handler msg).calls = [s]) ∧
    (∀ e, decodeMsg now msg = .error e →
      (onMessage now handler msg).calls = [] ∧
      (onMessage now handler msg).log ≠ .success) := by
  unfold onMessage onMessageTry
  cases hdm : decodeMsg now msg with
  | error e =>
    cases hce : classifyError e <;> simp [hce]
  | ok s =>
    cases hh : handler s with
    | none => simp [hh]
    | some e =>
      cases hce : classifyError e <;> simp [hh, hce]

/-- Witness for C4: a malformed-JSON message is dropped without a
callback invocation, and a valid message reaches the callback once. -/
theorem on_message_never_propagates_witness :
    (onMessage 0 (fun _ => none) RawPayload.invalidJson).calls = [] ∧
    (onMessage 0 (fun _ => none) RawPayload.invalidJson).propagated = none ∧
    (onMessage 0 (fun _ => none) RawPayload.invalidJson).log ≠ .success := by
  obtain ⟨h1, _, h3⟩ :=
    on_message_never_propagates 0 (fun _ => none) RawPayload.invalidJson
  obtain ⟨h4, h5⟩ := h3 PyError.jsonDecodeError rfl
  exact ⟨h4, h1, h5⟩

/-- **C10**: Every invocation of `_on_sample_received` increments the
received count by exactly one and exactly one of the written count or
the failed count by exactly one, so received = written + failed is
preserved across every invocation. -/
theorem handler_counter_invariant (app : AppState) (s : WeatherSample) :
    (onSampleReceived app s).1.samples_received = app.samples_received + 1 ∧
    (((onSampleReceived app s).1.samples_written = app.samples_written + 1 ∧
      (onSampleReceived app s).1.samples_failed = app.samples_failed) ∨
     ((onSampleReceived app s).1.samples_failed = app.samples_failed + 1 ∧
      (onSampleReceived app s).1.samples_written = app.samples_written)) ∧
    (app.samples_received = app.samples_written + app.samples_failed →
      (onSampleReceived app s).1.samples_received =
        (onSampleReceived app s).1.samples_written +
          (onSampleReceived app s).1.samples_failed) := by
  unfold onSampleReceived
  cases hic : app.influx_client with
  | none => simp [hic]; omega
  | some ic =>
    cases hw : writeSample ic s with
    | ok ic2 =>
      by_cases hm : (app.samples_received + 1) % 10 = 0 <;>
        simp [hic, hw, hm] <;> omega
    | error e => simp [hic, hw]; omega

/-- Witness for C10 on a fresh coordinator receiving one sample. -/
theorem handler_counter_invariant_witness :
    (onSampleReceived appFresh sample0).1.samples_received = 1 ∧
    (onSampleReceived appFresh sample0).1.samples_received =
      (onSampleReceived appFresh sample0).1.samples_written +
        (onSampleReceived appFresh sample0).1.samples_failed := by
  obtain ⟨h1, _, h3⟩ := handler_counter_invariant appFresh sample0
  exact ⟨h1, h3 rfl⟩

/-- Counterexample for **C3** as stated: with 9 messages received and a
store that rejects the write, the tenth received message produces no
statistics report even though the received count reaches a multiple of
10 — the report is only emitted on the write-success path. -/
theorem stats_report_counterexample :
    (onSampleReceived appNine sample0).1.samples_received = 10 ∧
    (onSampleReceived appNine sample0).1.samples_received % 10 = 0 ∧
    AppEvent.statsReport ∉ (onSampleReceived appNine sample0).2 := by
  decide

/-- **C3** (amended): a statistics report is emitted by the message
handler exactly when the write for that message succeeded and the new
received count is a multiple of 10; on a write failure, or when the
storage client is absent, no report is emitted even at a multiple of
10. -/
theorem stats_report_on_write_success_iff (app : AppState) (s : WeatherSample) :
    AppEvent.statsReport ∈ (onSampleReceived app s).2 ↔
      ((app.samples_received + 1) % 10 = 0 ∧
       ∃ ic ic2, app.influx_client = some ic ∧ writeSample ic s = .ok ic2) := by
  unfold onSampleReceived
  cases hic : app.influx_client with
  | none => simp [hic]
  | some ic =>
    cases hw : writeSample ic s with
    | ok ic2 =>
      by_cases hm : (app.samples_received + 1) % 10 = 0 <;>
        simp [hic, hw, hm]
    | error e => simp [hic, hw]

/-- A coordinator that has received 9 messages with a working store. -/
def appNineOk : AppState :=
  ⟨9, 9, 0, some connectedInflux, none, false⟩

/-- Witness for the amended C3: the tenth successfully written message
does produce a statistics report. -/
theorem stats_report_on_write_success_iff_witness :
    AppEvent.statsReport ∈ (onSampleReceived appNineOk sample0).2 :=
  (stats_report_on_write_success_iff appNineOk sample0).mpr
    ⟨by decide, connectedInflux, _, rfl, rfl⟩

/-- Counterexample for **C2** as stated: publishing the spec's
out-of-range-temperature payload to a fresh coordinator stores zero
points and is logged as a validation failure, but the received count
does NOT increment — the message is dropped in the MQTT layer before the
coordinator's callback runs. -/
theorem out_of_range_received_counterexample :
    (pipelineStep appFresh 0 (RawPayload.valid badTempPayload)).1.samples_received = 0 ∧
    (pipelineStep appFresh 0 (RawPayload.valid badTempPayload)).2.1 =
      PipeLog.validationFailureLogged ∧
    appStoredCount (pipelineStep appFresh 0 (RawPayload.valid badTempPayload)).1 = 0 ∧
    ¬((pipelineStep appFresh 0 (RawPayload.valid badTempPayload)).1.samples_received =
      appFresh.samples_received + 1) := by
  decide

/-- **C2** (amended): for a published payload whose temperature is out of
range, with all other required fields present and coercible and any GPS
keys coercible, zero points are stored, exactly one validation failure
is logged, and the coordinator state — including the received, written
and failed counts — is unchanged (the sample never reaches the
coordinator's callback). -/
theorem out_of_range_drops_message (app : AppState) (now : ℤ) (d : JsonObj)
    (t h co2 fg tg uv bat : ℚ)
    (ht1 : dictGet d "temperature" = some (JsonVal.num t))
    (hh1 : dictGet d "humidity" = some (JsonVal.num h))
    (hc1 : dictGet d "co2" = some (JsonVal.num co2))
    (hf1 : dictGet d "flammable_gas" = some (JsonVal.num fg))
    (hx1 : dictGet d "toxic_gas" = some (JsonVal.num tg))
    (hu1 : dictGet d "uv_index" = some (JsonVal.num uv))
    (hb1 : dictGet d "battery" = some (JsonVal.num bat))
    (htr : ¬(-50 ≤ t ∧ t ≤ 100))
    (hlat : keyCoercibleIfPresent d "latitude")
    (hlon : keyCoercibleIfPresent d "longitude")
    (halt : keyCoercibleIfPresent d "altitude")
    (hsat : keyCoercibleIfPresent d "satellites")
    (hfq : keyCoercibleIfPresent d "fix_quality") :
    pipelineStep app now (.valid d) = (app, .validationFailureLogged, []) := by
  obtain ⟨olat, hlat1, -, -⟩ := getOptionalFloat_spec d "latitude" hlat
  obtain ⟨olon, hlon1, -, -⟩ := getOptionalFloat_spec d "longitude" hlon
  obtain ⟨oalt, halt1, -, -⟩ := getOptionalFloat_spec d "altitude" halt
  obtain ⟨osat, hsat1, -, -⟩ := getOptionalInt_spec d "satellites" hsat
  obtain ⟨ofq, hfq1, -, -⟩ := getOptionalInt_spec d "fix_quality" hfq
  have hdec : decodeMsg now (.valid d) = .error (.tempOutOfRange t) := by
    simp [decodeMsg, parseJsonRaw, except_bind_ok, jsonToWeatherSample,
      getRequiredFloat_ok d "temperature" t ht1,
      getRequiredFloat_ok d "humidity" h hh1,
      getRequiredFloat_ok d "co2" co2 hc1,
      getRequiredFloat_ok d "flammable_gas" fg hf1,
      getRequiredFloat_ok d "toxic_gas" tg hx1,
      getRequiredFloat_ok d "uv_index" uv hu1,
      getRequiredFloat_ok d "battery" bat hb1,
      hlat1, hlon1, halt1, hsat1, hfq1, mkWeatherSample, htr]
  simp [pipelineStep, hdec, classifyError]

/-- Witness for the amended C2 at the spec's concrete payload. -/
theorem out_of_range_drops_message_witness :
    pipelineStep appFresh 0 (.valid badTempPayload) =
      (appFresh, .validationFailureLogged, []) :=
  out_of_range_drops_message appFresh 0 badTempPayload
    200 50 500 100 80 6 4
    (by decide) (by decide) (by decide) (by decide) (by decide) (by decide)
    (by decide)
    (by norm_num)
    (keyCoercible_of_absent badTempPayload "latitude" (by decide))
    (keyCoercible_of_absent badTempPayload "longitude" (by decide))
    (keyCoercible_of_absent badTempPayload "altitude" (by decide))
    (keyCoercible_of_absent badTempPayload "satellites" (by decide))
    (keyCoercible_of_absent badTempPayload "fix_quality" (by decide))

/-- The MQTT-stop events `shutdown` logs, by client presence and stop
outcome. -/
def mqttShutEvents (mcl : Option MqttState) (sr : Bool) : List AppEvent :=
  match mcl with
  | none => []
  | some _ => if sr then [.mqttStopErrorLogged] else [.mqttStopped]

/-- The Influx-close events `shutdown` logs, by client presence and
close outcome. -/
def influxShutEvents (icl : Option InfluxState) (cr : Bool) : List AppEvent :=
  match icl with
  | none => []
  | some ic =>
    match ic.client with
    | none => [.influxClosed]
    | some _ => if cr then [.influxCloseErrorLogged] else [.influxClosed]

/-- Every MQTT-stop event is one of the two stop events. -/
theorem mqttShutEvents_mem (mcl : Option MqttState) (sr : Bool) :
    ∀ e ∈ mqttShutEvents mcl sr,
      e = AppEvent.mqttStopped ∨ e = AppEvent.mqttStopErrorLogged := by
  cases mcl <;> cases sr <;> simp [mqttShutEvents]

/-- Every Influx-close event is one of the two close events. -/
theorem influxShutEvents_mem (icl : Option InfluxState) (cr : Bool) :
    ∀ e ∈ influxShutEvents icl cr,
      e = AppEvent.influxClosed ∨ e = AppEvent.influxCloseErrorLogged := by
  cases icl with
  | none => simp [influxShutEvents]
  | some ic => cases hc : ic.client <;> cases cr <;> simp [influxShutEvents, hc]

/-- `shutdown` reports statistics first, then the stop events, then the
close events. -/
theorem shutdown_events_eq (env : ShutdownEnv) (app : AppState) :
    (shutdown env app).events = AppEvent.statsReport ::
      (mqttShutEvents app.mqtt_client env.stopRaises ++
       influxShutEvents app.influx_client env.closeRaises) := by
  obtain ⟨sr, cr⟩ := env
  obtain ⟨r, w, f, icl, mcl, sd⟩ := app
  cases mcl <;> rcases icl with - | ⟨meas, - | c⟩ <;> cases sr <;> cases cr <;>
    simp [shutdown, mqttStop, influxClose, mqttShutEvents, influxShutEvents]

/-- `shutdown` never lets an exception escape. -/
theorem shutdown_propagated_none (env : ShutdownEnv) (app : AppState) :
    (shutdown env app).propagated = none := by
  obtain ⟨sr, cr⟩ := env
  obtain ⟨r, w, f, icl, mcl, sd⟩ := app
  cases mcl <;> rcases icl with - | ⟨meas, - | c⟩ <;> cases sr <;> cases cr <;>
    simp [shutdown, mqttStop, influxClose]

/-- A second `shutdown` leaves the state of the first unchanged. -/
theorem shutdown_state_idem (env : ShutdownEnv) (app : AppState) :
    (shutdown env (shutdown env app).state).state = (shutdown env app).state := by
  obtain ⟨sr, cr⟩ := env
  obtain ⟨r, w, f, icl, mcl, sd⟩ := app
  rcases mcl with - | ⟨mc, ml⟩ <;> rcases icl with - | ⟨meas, - | ⟨cs, crj, crq, ccf⟩⟩ <;>
    cases sr <;> cases cr <;>
    simp [shutdown, mqttStop, influxClose]

/-- **C6**: `shutdown()` is idempotent — a second call reproduces the
same terminal state — and never raises; every call reports final
statistics first, then stops the MQTT client before closing the Influx
client, with any error in either step caught and suppressed. -/
theorem shutdown_idempotent_safe (env : ShutdownEnv) (app : AppState) :
    (shutdown env (shutdown env app).state).state = (shutdown env app).state ∧
    (shutdown env app).propagated = none ∧
    (shutdown env (shutdown env app).state).propagated = none ∧
    (shutdown env app).events.head? = some AppEvent.statsReport ∧
    ∃ em ei, (shutdown env app).events = AppEvent.statsReport :: (em ++ ei) ∧
      (∀ e ∈ em, e = AppEvent.mqttStopped ∨ e = AppEvent.mqttStopErrorLogged) ∧
      (∀ e ∈ ei, e = AppEvent.influxClosed ∨ e = AppEvent.influxCloseErrorLogged) := by
  refine ⟨shutdown_state_idem env app, shutdown_propagated_none env app,
    shutdown_propagated_none env _, ?_,
    mqttShutEvents app.mqtt_client env.stopRaises,
    influxShutEvents app.influx_client env.closeRaises,
    shutdown_events_eq env app,
    mqttShutEvents_mem app.mqtt_client env.stopRaises,
    influxShutEvents_mem app.influx_client env.closeRaises⟩
  rw [shutdown_events_eq]
  rfl

end WeatherSystem
